import Mathlib

/-!
# Verification of the ansible-log-analysis RAG core

A shallow embedding of the RAG index loader (`src/services/rag/index_loader.py`),
the RAG service endpoints and background loading loop (`src/services/rag/main.py`),
and the backend initialization pipeline (`src/backend_init_pipeline.py`),
together with theorems settling the specification claims.

Floating-point vectors are modelled over `ℚ` (exact arithmetic standing in for
the real-valued semantics of the numeric code); machine floats' rounding is not
at issue in any claim.
-/

set_option maxRecDepth 100000

namespace ALM

/-- Vectors are fixed-length sequences of numbers, modelled over `ℚ`. -/
abbrev Vec := List ℚ

/-- Sum of squares of a vector: `‖v‖² `.  Over `ℚ`, `v` has unit L2 norm iff
`normSq v = 1`. -/
def normSq (v : Vec) : ℚ := (v.map (fun x => x * x)).sum

/-- The raw embedding value of a storage row.  pgvector may hand the vector back
either as a native numeric sequence or as its textual encoding; the code
(`index_loader.py` lines 117-133) parses a textual value with `json.loads`, then
`ast.literal_eval` as fallback.  Those parsers are Python-stdlib collaborators,
so the textual case is modelled by its parse outcome: `.text (some v)` when
either parse succeeds with vector `v`, `.text none` when both parses fail. -/
inductive EmbValue where
  | native (v : Vec)
  | text (parsed : Option Vec)
deriving Repr, DecidableEq

/-- One row returned by the storage read
(`SELECT error_id, embedding, error_title, error_metadata, model_name,
embedding_dim FROM ragembedding ORDER BY error_id`). -/
structure Row where
  error_id : String
  embedding : EmbValue
  error_title : String
  /-- `error_metadata` JSON object: the code only reads its `sections` and
  `metadata` sub-objects (string-keyed maps). `none` models SQL NULL. -/
  error_metadata : Option (List (String × String) × List (String × String))
  model_name : String
  embedding_dim : Int
deriving Repr, DecidableEq

/-- The per-record payload stored in `error_store`
(`index_loader.py` lines 148-153). -/
structure Payload where
  error_id : String
  error_title : String
  sections : List (String × String)
  metadata : List (String × String)
deriving Repr, DecidableEq

/-- The FAISS `IndexFlatIP` object: a flat store of the added vectors
(dimension `d`, row matrix `xb`); `ntotal` is the number of stored rows. -/
structure FaissIndex where
  d : Nat
  xb : List Vec
deriving Repr, DecidableEq

/-- `index.ntotal` of a FAISS flat index. -/
def FaissIndex.ntotal (ix : FaissIndex) : Nat := ix.xb.length

/-- Loader configuration: `RAGIndexLoader.__init__` stores the model name and
hard-codes `embedding_dim = 768`. -/
structure LoaderCfg where
  model_name : String
  embedding_dim : Nat
deriving Repr, DecidableEq

/-- `RAGIndexLoader(database_url, model_name)`: `embedding_dim` is fixed at 768
(`index_loader.py` line 36). -/
def mkLoader (model_name : String) : LoaderCfg :=
  { model_name := model_name, embedding_dim := 768 }

/-- The mutable state of a `RAGIndexLoader`:
`self.index`, `self.error_store`, `self.index_to_error_id`, `self._loaded`. -/
structure LoaderState where
  index : Option FaissIndex
  error_store : List (String × Payload)
  index_to_error_id : List (Nat × String)
  loaded : Bool
deriving Repr, DecidableEq

/-- The state set up by `RAGIndexLoader.__init__` (lines 43-46). -/
def initState : LoaderState :=
  { index := none, error_store := [], index_to_error_id := [], loaded := false }

/-- Errors raised by `load_index`.  `noEmbeddings`, `dimMismatch`, `parseFailed`
and `shapeMismatch` are the `ValueError`s raised in `index_loader.py`;
`schemaMissing` and `transient` model the exceptions the storage layer itself
may raise before any row is produced (table not yet created / other error),
which `load_index` does not catch. -/
inductive LoadErr where
  | noEmbeddings
  | dimMismatch (db : Int) (expected : Nat)
  | parseFailed (error_id : String)
  | shapeMismatch (error_id : String) (expected : Nat) (got : Nat)
  | schemaMissing
  | transient
deriving Repr, DecidableEq

/-- Decode a row's embedding value (`index_loader.py` lines 115-135): a native
sequence is used as-is; a textual value must parse (JSON, then literal
fallback) or the build fails with the per-row parse `ValueError`. -/
def decodeEmbedding (error_id : String) : EmbValue → Except LoadErr Vec
  | .native v => .ok v
  | .text (some v) => .ok v
  | .text none => .error (.parseFailed error_id)

/-- Per-row processing of `load_index` (lines 95-155): the model-name check only
warns (no semantic effect); a declared-dimension mismatch raises; the vector is
decoded; a decoded-length mismatch raises.  On success the decoded vector is
returned unchanged — no normalization is applied. -/
def processRow (cfg : LoaderCfg) (row : Row) : Except LoadErr Vec :=
  if row.embedding_dim ≠ (cfg.embedding_dim : Int) then
    .error (.dimMismatch row.embedding_dim cfg.embedding_dim)
  else
    match decodeEmbedding row.error_id row.embedding with
    | .error e => .error e
    | .ok v =>
        if v.length ≠ cfg.embedding_dim then
          .error (.shapeMismatch row.error_id cfg.embedding_dim v.length)
        else
          .ok v

/-- Insert-or-replace into a Python-dict-like association list
(`error_store[error_id] = {...}`). -/
def dictInsert (k : String) (v : Payload) :
    List (String × Payload) → List (String × Payload)
  | [] => [(k, v)]
  | (k', v') :: rest =>
      if k' = k then (k, v) :: rest else (k', v') :: dictInsert k v rest

/-- The payload built for a row (`index_loader.py` lines 148-153). -/
def rowPayload (row : Row) : Payload :=
  { error_id := row.error_id
    error_title := row.error_title
    sections := (row.error_metadata.getD ([], [])).1
    metadata := (row.error_metadata.getD ([], [])).2 }

/-- The accumulators of `load_index`'s row loop: `embeddings_list`,
`error_store`, `index_to_error_id`. -/
structure BuildAcc where
  embeddings_list : List Vec
  error_store : List (String × Payload)
  index_to_error_id : List (Nat × String)
deriving Repr, DecidableEq

/-- The row loop of `load_index` (`for idx, row in enumerate(rows)`): rows are
processed in order; the first failing row aborts the whole build. -/
def buildRows (cfg : LoaderCfg) : List Row → Nat → Except LoadErr BuildAcc
  | [], _ => .ok { embeddings_list := [], error_store := [], index_to_error_id := [] }
  | row :: rest, idx =>
      match processRow cfg row with
      | .error e => .error e
      | .ok v =>
          match buildRows cfg rest (idx + 1) with
          | .error e => .error e
          | .ok acc =>
              .ok { embeddings_list := v :: acc.embeddings_list
                    error_store := dictInsert row.error_id (rowPayload row) acc.error_store
                    index_to_error_id := (idx, row.error_id) :: acc.index_to_error_id }

/-- `RAGIndexLoader.load_index` (`index_loader.py` lines 48-181), as a function
of the loader state and the rows currently returned by storage.  The storage
read itself may fail before producing rows (`.error outcome`), modelled by the
`StorageOutcome` argument.  Returns the post-call state together with either
the raised error or the returned triple's state.  The cached-return path
(lines 57-58), the zero-rows raise (lines 84-85), the row loop, and the final
state mutation (lines 175-179, executed only after every row validated) are
each represented. -/
inductive StorageOutcome where
  | ok (rows : List Row)
  | schemaMissing
  | transient
deriving Repr, DecidableEq

/-- Result of a successful `load_index` call: the `(index, error_store,
index_to_error_id)` triple. -/
structure LoadOk where
  index : FaissIndex
  error_store : List (String × Payload)
  index_to_error_id : List (Nat × String)
deriving Repr, DecidableEq

def load_index (cfg : LoaderCfg) (st : LoaderState) (storage : StorageOutcome) :
    LoaderState × Except LoadErr LoadOk :=
  if st.loaded ∧ st.index.isSome then
    (st, .ok { index := st.index.getD ⟨cfg.embedding_dim, []⟩
               error_store := st.error_store
               index_to_error_id := st.index_to_error_id })
  else
    match storage with
    | .schemaMissing => (st, .error .schemaMissing)
    | .transient => (st, .error .transient)
    | .ok rows =>
        if rows.isEmpty then (st, .error .noEmbeddings)
        else
          match buildRows cfg rows 0 with
          | .error e => (st, .error e)
          | .ok acc =>
              let ix : FaissIndex := { d := cfg.embedding_dim, xb := acc.embeddings_list }
              ({ index := some ix
                 error_store := acc.error_store
                 index_to_error_id := acc.index_to_error_id
                 loaded := true },
               .ok { index := ix
                     error_store := acc.error_store
                     index_to_error_id := acc.index_to_error_id })

/-- `RAGIndexLoader.reload_index` (`index_loader.py` lines 183-189): the loaded
flag, index, error store and ordinal mapping are cleared first, then
`load_index` runs from scratch. -/
def reload_index (cfg : LoaderCfg) (_st : LoaderState) (storage : StorageOutcome) :
    LoaderState × Except LoadErr LoadOk :=
  load_index cfg initState storage

/-! ## Similarity search engine (`src/services/rag/main.py`) -/

/-- Inner product of two vectors (pointwise product, summed). -/
def innerProduct (q v : Vec) : ℚ := ((q.zip v).map (fun p => p.1 * p.2)).sum

/-- The candidate ordering used to model FAISS top-k selection: higher score
first; among equal scores, the smaller ordinal (earlier-inserted row) first.
This is a total preorder given to `List.mergeSort` as a `Bool` relation. -/
def candLE (a b : ℚ × Nat) : Bool := b.1 < a.1 ∨ (a.1 = b.1 ∧ a.2 ≤ b.2)

/-- All rows of the index scored against the query: `(score, ordinal)` pairs
in insertion order. -/
def scoredRows (ix : FaissIndex) (q : Vec) : List (ℚ × Nat) :=
  ix.xb.enum.map (fun p => (innerProduct q p.2, p.1))

/-- All scored rows ranked by descending score, ties by ascending ordinal. -/
def rankedRows (ix : FaissIndex) (q : Vec) : List (ℚ × Nat) :=
  (scoredRows ix q).mergeSort candLE

/-- `faiss.IndexFlatIP.search(query, k)`: exact exhaustive maximum-inner-product
search, returning the `k` best `(score, ordinal)` pairs by descending score
(deterministic ties by ascending ordinal).  FAISS is an external library; this
models its documented exact flat search.  FAISS pads with ordinal `-1` when
`k > ntotal` and the caller skips those entries (`main.py` line 225), so the
model returns just the `min k ntotal` real results. -/
def faissSearch (ix : FaissIndex) (q : Vec) (k : Nat) : List (ℚ × Nat) :=
  (rankedRows ix q).take k

/-- One formatted result of `query_rag`: the fields relevant to the claims are
the key and the score; the payload fields are copied from the error store. -/
structure ErrorResult where
  error_id : String
  similarity_score : ℚ
  /-- ordinal of the matched row, kept to relate results to index rows -/
  ordinal : Nat
deriving Repr, DecidableEq

/-- Steps 2-4 of `query_rag` (`main.py` lines 214-255): FAISS top-k search with
the (already normalized) query vector, drop candidates whose similarity is
strictly below the threshold, map survivors through `index_to_error_id`, and
keep the first `top_n`.  The query-embedding call and L2 normalization
(lines 172-212) happen upstream of this function; the claims quantify over the
query vector that reaches the search, so they are not modelled here. -/
def query_rag (st : LoaderState) (ix : FaissIndex) (q : Vec)
    (top_k top_n : Nat) (threshold : ℚ) : List ErrorResult :=
  (((faissSearch ix q top_k).filter (fun p => ¬ p.1 < threshold)).map
    (fun p =>
      { error_id := ((st.index_to_error_id.lookup p.2).getD "")
        similarity_score := p.1
        ordinal := p.2 })).take top_n

/-! ## Service endpoints and background loading loop (`src/services/rag/main.py`) -/

/-- `health_check` (`main.py` lines 136-144): unhealthy while no index is
loaded, else healthy with the index size.  `none` for the loader argument
models `index_loader is None` (startup not yet run). -/
inductive HealthStatus where
  | unhealthy
  | healthy (index_size : Nat)
deriving Repr, DecidableEq

def health_check (loader : Option LoaderState) : HealthStatus :=
  match loader with
  | none => .unhealthy
  | some st =>
      match st.index with
      | none => .unhealthy
      | some ix => .healthy ix.ntotal

/-- `readiness_check` (`main.py` lines 147-152) and the not-ready guard of
`query_rag` (lines 165-168): a request is servable iff a loader exists and its
index is loaded; otherwise HTTP 503. -/
def servable (loader : Option LoaderState) : Bool :=
  match loader with
  | none => false
  | some st => st.index.isSome

/-- The `POST /rag/reload` endpoint (`main.py` lines 275-293): calls
`reload_index`; an exception becomes an HTTP 500 error response, but the state
mutation done by `reload_index` before the failure is kept. -/
def reloadEndpoint (cfg : LoaderCfg) (st : LoaderState) (storage : StorageOutcome) :
    LoaderState × Except LoadErr Nat :=
  match reload_index cfg st storage with
  | (st', .ok r) => (st', .ok r.index.ntotal)
  | (st', .error e) => (st', .error e)

/-- How `load_index_background` exits: index loaded, gave up on a
non-retryable error (`return` in the non-matching `ValueError` branch), or the
600-second budget exhausted (the warning after the loop).  The function always
returns one of these; no exception escapes it. -/
inductive LoopExit where
  | loaded
  | nonRetryableStop (e : LoadErr)
  | timedOut
deriving Repr, DecidableEq

/-- The retry classification of `load_index_background` (`main.py` lines
90-122): a `ValueError` whose message contains `"No embeddings found"` retries;
any other `ValueError` (dimension, parse or shape failure) stops the loop; a
non-`ValueError` exception retries, whether it matches the table-missing
message patterns or is treated as transient. -/
def retryable : LoadErr → Bool
  | .noEmbeddings => true
  | .dimMismatch _ _ => false
  | .parseFailed _ => false
  | .shapeMismatch _ _ _ => false
  | .schemaMissing => true
  | .transient => true

/-- The `while elapsed < max_wait_time` polling loop of `load_index_background`
(`main.py` lines 85-122).  `outcomes` gives the storage contents seen by the
`n`-th attempt; `fuel` is the number of remaining attempts (`elapsed` advances
by exactly `wait_interval` per retry, so the loop body runs at most
`max_wait_time / wait_interval` times). -/
def loadLoop (cfg : LoaderCfg) (st : LoaderState) (outcomes : Nat → StorageOutcome) :
    Nat → Nat → LoaderState × LoopExit
  | _, 0 => (st, .timedOut)
  | attempt, fuel + 1 =>
      match load_index cfg st (outcomes attempt) with
      | (st', .ok _) => (st', .loaded)
      | (st', .error e) =>
          if retryable e then loadLoop cfg st' outcomes (attempt + 1) fuel
          else (st', .nonRetryableStop e)

/-- `max_wait_time = 600`, `wait_interval = 5` (`main.py` lines 80-81): the
loop makes at most 120 attempts. -/
def maxAttempts : Nat := 600 / 5

/-- `load_index_background` (`main.py` lines 64-126): builds a fresh loader and
polls until the index loads, a non-retryable error occurs, or the wait budget
runs out.  It returns in every case — exceptions from `load_index` are caught
inside the loop and either retried or turned into a plain `return`. -/
def load_index_background (cfg : LoaderCfg) (outcomes : Nat → StorageOutcome) :
    LoaderState × LoopExit :=
  loadLoop cfg initState outcomes 0 maxAttempts

/-! ## Backend initialization pipeline (`src/backend_init_pipeline.py`) -/

/-- Outcome of `wait_for_job_complete(job, ns, max_wait_time)`.  Modelled from
the spec: the waiter itself lives in `alm.utils.job_monitor`, outside the
sources; §4.5 gives its contract — success when the job phase reaches
Succeeded, a `JobFailed` error (`RuntimeError`) when it reaches Failed, a
`Timeout` error (`TimeoutError`) when `max_wait_time` elapses first. -/
inductive JobWaitResult where
  | succeeded
  | timeout
  | jobFailed
deriving Repr, DecidableEq

/-- The phases of one pipeline run, in the order `main` invokes them. -/
inductive Phase where
  | setup
  | prepare
  | ragWait
  | process
deriving Repr, DecidableEq

/-- How a pipeline run fails: each constructor is an exception propagating out
of the corresponding step of `main`'s `try` body. -/
inductive PipeErr where
  | setupFailed
  | prepareFailed
  | jobWaitFailed (r : JobWaitResult)
  | ragWaitFailed
  | processFailed
deriving Repr, DecidableEq

/-- Result of one run of the pipeline coordinator: the phases that were
invoked (in order), the run's outcome, and whether the monitor task was
started and cancelled. -/
structure PipeRun where
  trace : List Phase
  result : Except PipeErr Unit
  monitorStarted : Bool
  monitorCancelled : Bool
deriving Repr

/-- The `try` body of `main` (`backend_init_pipeline.py` lines 52-104), over
the outcomes of its collaborators: `setupOk` — whether
`setup_data_directories` completes; `prep` — the result of
`training_pipeline_prepare` (its outputs of type `π` on success); `job` — the
result of the already-running `wait_for_job_complete` task, awaited after
preparation (a `TimeoutError`/`RuntimeError` is caught, logged and re-raised,
lines 81-86); `ragOk` — whether `wait_for_rag_service` succeeds; `processOk` —
whether `training_pipeline_process` succeeds on the preparation outputs.
Returns the invoked phases in order and the body's outcome. -/
def pipelineBody {π : Type} (setupOk : Bool) (prep : Except Unit π)
    (job : JobWaitResult) (ragOk : Bool) (processOk : π → Bool) :
    List Phase × Except PipeErr Unit :=
  if ¬ setupOk then ([.setup], .error .setupFailed)
  else
    match prep with
    | .error _ => ([.setup, .prepare], .error .prepareFailed)
    | .ok outputs =>
        match job with
        | .timeout => ([.setup, .prepare], .error (.jobWaitFailed .timeout))
        | .jobFailed => ([.setup, .prepare], .error (.jobWaitFailed .jobFailed))
        | .succeeded =>
            if ¬ ragOk then ([.setup, .prepare, .ragWait], .error .ragWaitFailed)
            else if ¬ processOk outputs then
              ([.setup, .prepare, .ragWait, .process], .error .processFailed)
            else
              ([.setup, .prepare, .ragWait, .process], .ok ())

/-- `main` (`backend_init_pipeline.py` lines 30-113): starts the monitor task
(best-effort, lines 43-50), runs the `try` body, and in the `finally` block
(lines 106-113) cancels and awaits the monitor task if it was started,
swallowing its `CancelledError` — so cancellation happens on every exit path
and never changes the body's outcome.  `monitor_other_job_async` is modelled
from the spec (§4.5): it runs until cancelled and exits via cancellation
without surfacing it as an error, so awaiting the cancelled task raises only
`CancelledError`, which line 112 catches. -/
def pipelineMain {π : Type} (monitorStartOk setupOk : Bool) (prep : Except Unit π)
    (job : JobWaitResult) (ragOk : Bool) (processOk : π → Bool) : PipeRun :=
  let body := pipelineBody setupOk prep job ragOk processOk
  { trace := body.1
    result := body.2
    monitorStarted := monitorStartOk
    monitorCancelled := monitorStartOk }

/-! ## Concrete demonstration objects

Used by witness and counterexample theorems below: a loader with the default
model name (dimension 768, as `__init__` fixes), a well-formed storage row,
and the states/results of loading it. -/

/-- A loader built like `RAGIndexLoader(url)`: dimension 768. -/
def demoCfg : LoaderCfg := mkLoader "nomic-ai/nomic-embed-text-v1.5"

/-- A storage row that passes every `load_index` check: declared dimension
768, native 768-entry vector (all zeroes — `load_index` never inspects norms,
only lengths). -/
def demoRow : Row :=
  { error_id := "e1"
    embedding := .native (List.replicate 768 0)
    error_title := "demo error"
    error_metadata := none
    model_name := "nomic-ai/nomic-embed-text-v1.5"
    embedding_dim := 768 }

/-- A second well-formed row with a different key. -/
def demoRow2 : Row :=
  { error_id := "e2"
    embedding := .native (List.replicate 768 0)
    error_title := "demo error 2"
    error_metadata := none
    model_name := "nomic-ai/nomic-embed-text-v1.5"
    embedding_dim := 768 }

/-- A row whose declared embedding dimension (512) differs from the configured
768 — the bad row of claim C4's scenario. -/
def badDimRow : Row :=
  { error_id := "bad"
    embedding := .native (List.replicate 768 0)
    error_title := "bad row"
    error_metadata := none
    model_name := "nomic-ai/nomic-embed-text-v1.5"
    embedding_dim := 512 }

/-- The loader state after successfully loading `[demoRow]`. -/
def demoLoadedState : LoaderState := (load_index demoCfg initState (.ok [demoRow])).1

/-- The triple returned by that successful load. -/
def demoBuildOk : LoadOk :=
  { index := { d := 768, xb := [List.replicate 768 0] }
    error_store := [("e1", rowPayload demoRow)]
    index_to_error_id := [(0, "e1")] }

/-- The two-record index of the spec's worked example (§8): A = [1,0],
B = [0,1]. -/
def demoIx : FaissIndex := { d := 2, xb := [[1, 0], [0, 1]] }

/-- A loader state serving `demoIx` with keys A (ordinal 0) and B (ordinal 1). -/
def demoSearchState : LoaderState :=
  { index := some demoIx
    error_store := []
    index_to_error_id := [(0, "A"), (1, "B")]
    loaded := true }

/-- The spec's example query vector [0.9, 0.1]. -/
def demoQuery : Vec := [(9 : ℚ)/10, 1/10]

/-! # Theorems

Helper lemmas first, then one theorem per claim (with witness or
counterexample theorems where required). -/

/-- `load_index` mutates the loader state only on the success path: when it
raises, every field is left exactly as it was (the assignments at
`index_loader.py` lines 175-179 run only after all validation). -/
theorem load_index_fst_of_error (cfg : LoaderCfg) (st : LoaderState)
    (storage : StorageOutcome) (e : LoadErr)
    (h : (load_index cfg st storage).2 = Except.error e) :
    (load_index cfg st storage).1 = st := by
  by_cases hc : st.loaded ∧ st.index.isSome
  · simp [load_index, hc] at h
  · cases storage with
    | schemaMissing => simp [load_index, hc]
    | transient => simp [load_index, hc]
    | ok rows =>
      by_cases hr : rows.isEmpty
      · simp [load_index, hc, hr]
      · rcases hbuild : buildRows cfg rows 0 with e' | acc
        · simp [load_index, hc, hr, hbuild]
        · simp [load_index, hc, hr, hbuild] at h

/-- A successful `load_index` leaves the loader caching that very result:
`_loaded` is set and the index is the returned one. -/
theorem load_index_snd_ok_state (cfg : LoaderCfg) (st : LoaderState)
    (storage : StorageOutcome) (r : LoadOk)
    (h : (load_index cfg st storage).2 = Except.ok r) :
    (load_index cfg st storage).1.loaded = true ∧
    (load_index cfg st storage).1.index = some r.index ∧
    (load_index cfg st storage).1.error_store = r.error_store ∧
    (load_index cfg st storage).1.index_to_error_id = r.index_to_error_id := by
  by_cases hc : st.loaded ∧ st.index.isSome
  · rcases hix : st.index with _ | ix
    · exact absurd hc (by simp [hix])
    · simp only [load_index] at h ⊢
      rw [if_pos hc] at h ⊢
      simp only [hix, Option.getD_some] at h
      simp at h
      subst h
      simp [hc.1, hix]
  · cases storage with
    | schemaMissing => simp [load_index, hc] at h
    | transient => simp [load_index, hc] at h
    | ok rows =>
      by_cases hr : rows.isEmpty
      · simp [load_index, hc, hr] at h
      · rcases hbuild : buildRows cfg rows 0 with e' | acc
        · simp [load_index, hc, hr, hbuild] at h
        · simp only [load_index, if_neg hc, if_neg hr, hbuild] at h ⊢
          simp at h
          subst h
          simp

/-- C1 (counterexample): the claim "a failed rebuild leaves the previously
loaded snapshot untouched and still servable" is false.  Concretely: after a
successful load of `[demoRow]` the service is servable; a reload during which
storage returns zero rows fails — and the previously loaded snapshot is gone
(`index = None`), so queries are rejected with 503 instead of being served by
the old snapshot. -/
theorem c1_counterexample :
    servable (some demoLoadedState) = true ∧
    (reload_index demoCfg demoLoadedState (.ok [])).2 = Except.error LoadErr.noEmbeddings ∧
    (reload_index demoCfg demoLoadedState (.ok [])).1.index = none ∧
    servable (some (reload_index demoCfg demoLoadedState (.ok [])).1) = false :=
  ⟨by rfl, by rfl, by rfl, by rfl⟩

/-- C1 (amended): `reload_index` first clears the loaded snapshot
(`index_loader.py` lines 185-188), so a failed rebuild leaves the loader back
in its initial, snapshot-free state — queries are rejected as not-ready rather
than served from the old snapshot — while a successful rebuild installs the
freshly built snapshot. -/
theorem c1_amended_reload_discards (cfg : LoaderCfg) (st : LoaderState)
    (storage : StorageOutcome) :
    (∀ e : LoadErr, (reload_index cfg st storage).2 = Except.error e →
        (reload_index cfg st storage).1 = initState ∧
        servable (some (reload_index cfg st storage).1) = false) ∧
    (∀ r : LoadOk, (reload_index cfg st storage).2 = Except.ok r →
        (reload_index cfg st storage).1.index = some r.index ∧
        (reload_index cfg st storage).1.loaded = true) := by
  constructor
  · intro e h
    have h' : (load_index cfg initState storage).2 = Except.error e := h
    have hfst := load_index_fst_of_error cfg initState storage e h'
    refine ⟨hfst, ?_⟩
    show servable (some (load_index cfg initState storage).1) = false
    rw [hfst]
    rfl
  · intro r h
    have h' : (load_index cfg initState storage).2 = Except.ok r := h
    have hst := load_index_snd_ok_state cfg initState storage r h'
    exact ⟨hst.2.1, hst.1⟩

/-- C1 (witness for the amended claim), at the counterexample's input: the
failed reload leaves the loader in the cleared initial state, not servable. -/
theorem c1_witness :
    (reload_index demoCfg demoLoadedState (.ok [])).1 = initState ∧
    servable (some (reload_index demoCfg demoLoadedState (.ok [])).1) = false :=
  (c1_amended_reload_discards demoCfg demoLoadedState (.ok [])).1 .noEmbeddings (by rfl)

/-- C9: `reload_index` ignores the loader's prior state (it rebuilds from the
cleared initial state), so with unchanged storage contents a second immediate
reload returns exactly the first reload's outcome — in particular, for
successful reloads, indexes of identical size and identical results (hence
identical per-key scores) for any fixed query. -/
theorem c9_reload_idempotent (cfg : LoaderCfg) (st : LoaderState)
    (storage : StorageOutcome) (q : Vec) (k n : Nat) (t : ℚ) :
    reload_index cfg (reload_index cfg st storage).1 storage
      = reload_index cfg st storage ∧
    ∀ r₁ r₂ : LoadOk,
      (reload_index cfg (reload_index cfg st storage).1 storage).2 = Except.ok r₁ →
      (reload_index cfg st storage).2 = Except.ok r₂ →
      r₁.index.ntotal = r₂.index.ntotal ∧
      query_rag (reload_index cfg (reload_index cfg st storage).1 storage).1 r₁.index q k n t
        = query_rag (reload_index cfg st storage).1 r₂.index q k n t := by
  refine ⟨rfl, ?_⟩
  intro r₁ r₂ h₁ h₂
  have hr : r₁ = r₂ := Except.ok.inj ((h₁.symm.trans h₂ : Except.ok r₁ = Except.ok r₂))
  subst hr
  exact ⟨rfl, rfl⟩

/-- C9 (witness): two immediate reloads of `[demoRow]` agree on size and on
the search results of the demo query. -/
theorem c9_witness :
    demoBuildOk.index.ntotal = demoBuildOk.index.ntotal ∧
    query_rag (reload_index demoCfg (reload_index demoCfg initState (.ok [demoRow])).1
        (.ok [demoRow])).1 demoBuildOk.index demoQuery 2 2 0
      = query_rag (reload_index demoCfg initState (.ok [demoRow])).1
        demoBuildOk.index demoQuery 2 2 0 :=
  (c9_reload_idempotent demoCfg initState (.ok [demoRow]) demoQuery 2 2 0).2
    demoBuildOk demoBuildOk (by rfl) (by rfl)

/-- C10: after any successful `load_index` call the loader caches the result
(`_loaded = True`, `index` set), and every subsequent `load_index` call
returns that identical cached triple without consulting storage at all — for
any storage contents whatsoever, including changed or failing storage — until
`reload_index` resets the flag. -/
theorem c10_load_index_cached (cfg : LoaderCfg) (st : LoaderState)
    (storage : StorageOutcome) (r : LoadOk)
    (h : (load_index cfg st storage).2 = Except.ok r) :
    (load_index cfg st storage).1.loaded = true ∧
    (load_index cfg st storage).1.index = some r.index ∧
    ∀ storage' : StorageOutcome,
      load_index cfg (load_index cfg st storage).1 storage'
        = ((load_index cfg st storage).1, Except.ok r) := by
  obtain ⟨hl, hix, hes, him⟩ := load_index_snd_ok_state cfg st storage r h
  refine ⟨hl, hix, ?_⟩
  intro s'
  rcases r with ⟨rix, res, rim⟩
  set post := (load_index cfg st storage).1 with hpost
  have hc : post.loaded = true ∧ post.index.isSome = true := by simp [hl, hix]
  show load_index cfg post s' = (post, Except.ok ⟨rix, res, rim⟩)
  simp only [load_index]
  rw [if_pos hc]
  simp only [hix, hes, him]
  simp

/-- C10 (witness): after loading `[demoRow]`, a further `load_index` call
against broken storage (transient failure) still returns the cached triple. -/
theorem c10_witness :
    load_index demoCfg (load_index demoCfg initState (.ok [demoRow])).1 .transient
      = ((load_index demoCfg initState (.ok [demoRow])).1, Except.ok demoBuildOk) :=
  (c10_load_index_cached demoCfg initState (.ok [demoRow]) demoBuildOk (by rfl)).2.2 .transient

/-- A not-yet-loaded loader raises the dedicated "no data yet" `ValueError`
on zero rows, without touching any state (`index_loader.py` lines 84-85). -/
theorem load_index_empty (cfg : LoaderCfg) (st : LoaderState)
    (h : st.loaded = false) :
    load_index cfg st (.ok []) = (st, Except.error LoadErr.noEmbeddings) := by
  have hc : ¬(st.loaded = true ∧ st.index.isSome = true) := by simp [h]
  simp [load_index, hc]

/-- If storage reports zero rows at every attempt, the polling loop retries at
each step and runs out its budget with the state untouched. -/
theorem loadLoop_all_empty (cfg : LoaderCfg) (st : LoaderState)
    (outcomes : Nat → StorageOutcome) (h : st.loaded = false)
    (hout : ∀ i, outcomes i = .ok []) :
    ∀ fuel attempt, loadLoop cfg st outcomes attempt fuel = (st, LoopExit.timedOut) := by
  intro fuel
  induction fuel with
  | zero => intro attempt; rfl
  | succ fuel ih =>
      intro attempt
      simp only [loadLoop, hout attempt, load_index_empty cfg st h]
      simpa [retryable] using ih (attempt + 1)

/-- If every attempt fails (whatever the failure), the loop keeps the state
untouched and exits normally — by timeout or by the non-retryable `return` —
never by an exception and never as `loaded`. -/
theorem loadLoop_all_fail (cfg : LoaderCfg) (st : LoaderState)
    (outcomes : Nat → StorageOutcome)
    (h : ∀ i, ∃ e, (load_index cfg st (outcomes i)).2 = Except.error e) :
    ∀ fuel attempt, (loadLoop cfg st outcomes attempt fuel).1 = st ∧
      ((loadLoop cfg st outcomes attempt fuel).2 = LoopExit.timedOut ∨
        ∃ e, retryable e = false ∧
          (loadLoop cfg st outcomes attempt fuel).2 = LoopExit.nonRetryableStop e) := by
  intro fuel
  induction fuel with
  | zero => intro attempt; exact ⟨rfl, Or.inl rfl⟩
  | succ fuel ih =>
      intro attempt
      obtain ⟨e, he⟩ := h attempt
      have hfst := load_index_fst_of_error cfg st (outcomes attempt) e he
      have heq : load_index cfg st (outcomes attempt) = (st, Except.error e) := by
        rw [Prod.ext_iff]
        exact ⟨hfst, he⟩
      by_cases hre : retryable e = true
      · simp only [loadLoop, heq, hre, if_true]
        exact ih (attempt + 1)
      · simp only [loadLoop, heq]
        rw [if_neg hre]
        exact ⟨rfl, Or.inr ⟨e, by simpa using hre, rfl⟩⟩

/-- C3: a build attempt against storage with zero rows raises the dedicated
`noEmbeddings` condition (the `ValueError` whose message the loop recognizes
as "no data yet"), which the loop classifies as retryable; the loader state is
untouched — never Ready — and the loop itself retries instead of raising,
finally returning its timeout exit normally. -/
theorem c3_zero_rows (cfg : LoaderCfg) (st : LoaderState)
    (outcomes : Nat → StorageOutcome) (fuel attempt : Nat)
    (h : st.loaded = false) (hix : st.index = none)
    (hout : ∀ i, outcomes i = .ok []) :
    load_index cfg st (.ok []) = (st, Except.error LoadErr.noEmbeddings) ∧
    retryable LoadErr.noEmbeddings = true ∧
    loadLoop cfg st outcomes attempt fuel = (st, LoopExit.timedOut) ∧
    (loadLoop cfg st outcomes attempt fuel).1.index = none ∧
    servable (some (loadLoop cfg st outcomes attempt fuel).1) = false := by
  have hloop := loadLoop_all_empty cfg st outcomes h hout fuel attempt
  refine ⟨load_index_empty cfg st h, rfl, hloop, ?_, ?_⟩
  · rw [hloop]; exact hix
  · rw [hloop]; simp [servable, hix]

/-- C3 (witness): a fresh loader polling storage that stays empty for the full
600-second budget: the distinct retryable signal fires, the loop times out
normally, and readiness still reports not-ready. -/
theorem c3_witness :
    load_index demoCfg initState (.ok []) = (initState, Except.error LoadErr.noEmbeddings) ∧
    retryable LoadErr.noEmbeddings = true ∧
    loadLoop demoCfg initState (fun _ => .ok []) 0 maxAttempts = (initState, LoopExit.timedOut) ∧
    (loadLoop demoCfg initState (fun _ => .ok []) 0 maxAttempts).1.index = none ∧
    servable (some (loadLoop demoCfg initState (fun _ => .ok []) 0 maxAttempts).1) = false := by
  have := c3_zero_rows demoCfg initState (fun _ => .ok []) maxAttempts 0
    (by rfl) (by rfl) (fun _ => rfl)
  exact ⟨this.1, this.2.1, this.2.2.1, this.2.2.2.1, this.2.2.2.2⟩

/-- C6: whatever storage does, if no attempt ever builds a snapshot then the
background loop (600-second budget, 5-second polls — at most 120 attempts by
construction of its fuel) finishes with a normal exit (`timedOut`, or the
deliberate `return` on a non-retryable error), no exception escapes (the loop
is a total function into `LoopExit`), the loader state is the untouched fresh
state, and health/ready keep reporting not-ready. -/
theorem c6_loop_bounded (cfg : LoaderCfg) (outcomes : Nat → StorageOutcome)
    (h : ∀ i, ∃ e, (load_index cfg initState (outcomes i)).2 = Except.error e) :
    maxAttempts = 120 ∧
    (load_index_background cfg outcomes).1 = initState ∧
    ((load_index_background cfg outcomes).2 = LoopExit.timedOut ∨
      ∃ e, retryable e = false ∧
        (load_index_background cfg outcomes).2 = LoopExit.nonRetryableStop e) ∧
    (load_index_background cfg outcomes).2 ≠ LoopExit.loaded ∧
    health_check (some (load_index_background cfg outcomes).1) = HealthStatus.unhealthy ∧
    servable (some (load_index_background cfg outcomes).1) = false := by
  have hloop := loadLoop_all_fail cfg initState outcomes h maxAttempts 0
  have hne : (load_index_background cfg outcomes).2 ≠ LoopExit.loaded := by
    rcases hloop.2 with h2 | ⟨e, _, h2⟩ <;>
      · intro hcon
        rw [show (load_index_background cfg outcomes).2
              = (loadLoop cfg initState outcomes 0 maxAttempts).2 from rfl] at hcon
        rw [h2] at hcon
        cases hcon
  refine ⟨rfl, hloop.1, hloop.2, hne, ?_, ?_⟩
  · show health_check (some (loadLoop cfg initState outcomes 0 maxAttempts).1) = _
    rw [hloop.1]; rfl
  · show servable (some (loadLoop cfg initState outcomes 0 maxAttempts).1) = _
    rw [hloop.1]; rfl

/-- C6 (witness): storage failing transiently on every one of the 120
attempts: the loop times out normally and the service reports not-ready. -/
theorem c6_witness :
    maxAttempts = 120 ∧
    (load_index_background demoCfg (fun _ => .transient)).1 = initState ∧
    ((load_index_background demoCfg (fun _ => .transient)).2 = LoopExit.timedOut ∨
      ∃ e, retryable e = false ∧
        (load_index_background demoCfg (fun _ => .transient)).2 = LoopExit.nonRetryableStop e) ∧
    (load_index_background demoCfg (fun _ => .transient)).2 ≠ LoopExit.loaded ∧
    health_check (some (load_index_background demoCfg (fun _ => .transient)).1) = HealthStatus.unhealthy ∧
    servable (some (load_index_background demoCfg (fun _ => .transient)).1) = false :=
  c6_loop_bounded demoCfg (fun _ => .transient) (fun _ => ⟨LoadErr.transient, rfl⟩)

/-- A row is bad in the sense of claim C4: its declared embedding dimension
differs from the configured one, or its vector decodes to the wrong length. -/
def BadRow (cfg : LoaderCfg) (r : Row) : Prop :=
  r.embedding_dim ≠ (cfg.embedding_dim : Int) ∨
  ∃ v, decodeEmbedding r.error_id r.embedding = Except.ok v ∧ v.length ≠ cfg.embedding_dim

/-- Processing a bad row raises. -/
theorem processRow_error_of_bad (cfg : LoaderCfg) (r : Row) (hbad : BadRow cfg r) :
    ∃ e, processRow cfg r = Except.error e := by
  rcases hbad with hdim | ⟨v, hdec, hlen⟩
  · exact ⟨.dimMismatch r.embedding_dim cfg.embedding_dim, by simp [processRow, hdim]⟩
  · by_cases hdim : r.embedding_dim ≠ (cfg.embedding_dim : Int)
    · exact ⟨.dimMismatch r.embedding_dim cfg.embedding_dim, by simp [processRow, hdim]⟩
    · exact ⟨.shapeMismatch r.error_id cfg.embedding_dim v.length,
        by simp [processRow, hdim, hdec, hlen]⟩

/-- The row loop aborts whenever any row of the batch is bad: rows are
validated one by one and the first raise ends the whole build. -/
theorem buildRows_error_of_bad (cfg : LoaderCfg) :
    ∀ (rows : List Row) (idx : Nat) (r : Row), r ∈ rows → BadRow cfg r →
      ∃ e, buildRows cfg rows idx = Except.error e := by
  intro rows
  induction rows with
  | nil => intro idx r hmem; cases hmem
  | cons row rest ih =>
      intro idx r hmem hbad
      rcases List.mem_cons.mp hmem with heq | hmem'
      · obtain ⟨e, he⟩ := processRow_error_of_bad cfg r (hbad)
        exact ⟨e, by simp [buildRows, heq ▸ he]⟩
      · rcases hp : processRow cfg row with e | v
        · exact ⟨e, by simp [buildRows, hp]⟩
        · obtain ⟨e, he⟩ := ih (idx + 1) r hmem' hbad
          exact ⟨e, by simp [buildRows, hp, he]⟩

/-- C4: on a real build attempt (cache not hit), one bad row anywhere in the
batch — wrong declared dimension or wrong decoded length — fails `load_index`
entirely, and no partial index is produced: the loader state is exactly what
it was before the attempt. -/
theorem c4_bad_row_fails_build (cfg : LoaderCfg) (st : LoaderState)
    (rows : List Row) (r : Row) (hnl : st.loaded = false)
    (hmem : r ∈ rows) (hbad : BadRow cfg r) :
    (∃ e, (load_index cfg st (.ok rows)).2 = Except.error e) ∧
    (load_index cfg st (.ok rows)).1 = st := by
  have hc : ¬(st.loaded = true ∧ st.index.isSome = true) := by simp [hnl]
  have hne : rows.isEmpty = false := by
    cases rows with
    | nil => cases hmem
    | cons a l => rfl
  obtain ⟨e, he⟩ := buildRows_error_of_bad cfg rows 0 r hmem hbad
  have hsnd : (load_index cfg st (.ok rows)).2 = Except.error e := by
    simp [load_index, hc, hne, he]
  exact ⟨⟨e, hsnd⟩, load_index_fst_of_error cfg st (.ok rows) e hsnd⟩

/-- C4 (witness): a batch of one fully valid row plus one row declaring
dimension 512 against the configured 768: the whole build fails and the state
is untouched — even though the other row is valid. -/
theorem c4_witness :
    (∃ e, (load_index demoCfg initState (.ok [demoRow, badDimRow])).2 = Except.error e) ∧
    (load_index demoCfg initState (.ok [demoRow, badDimRow])).1 = initState :=
  c4_bad_row_fails_build demoCfg initState [demoRow, badDimRow] badDimRow rfl
    (by decide) (Or.inl (by decide))

/-- A row that processes successfully contributes exactly its decoded vector,
of the configured length — nothing is rescaled or normalized. -/
theorem processRow_ok_spec (cfg : LoaderCfg) (row : Row) (v : Vec)
    (h : processRow cfg row = Except.ok v) :
    decodeEmbedding row.error_id row.embedding = Except.ok v ∧
    v.length = cfg.embedding_dim := by
  by_cases hdim : row.embedding_dim ≠ (cfg.embedding_dim : Int)
  · simp [processRow, hdim] at h
  · rcases hdec : decodeEmbedding row.error_id row.embedding with e | w
    · simp [processRow, hdim, hdec] at h
    · by_cases hlen : w.length ≠ cfg.embedding_dim
      · simp [processRow, hdim, hdec, hlen] at h
      · simp [processRow, hdim, hdec, hlen] at h
        subst h
        exact ⟨rfl, by simpa using hlen⟩

/-- Keys present after a dict insert come from the inserted key or from the
old dict. -/
theorem dictInsert_keys (k : String) (v : Payload) :
    ∀ d : List (String × Payload), ∀ kk ∈ (dictInsert k v d).map Prod.fst,
      kk = k ∨ kk ∈ d.map Prod.fst := by
  intro d
  induction d with
  | nil => intro kk hkk; simp [dictInsert] at hkk; exact Or.inl hkk
  | cons p rest ih =>
      obtain ⟨pk, pv⟩ := p
      intro kk hkk
      simp only [dictInsert] at hkk
      by_cases hk : pk = k
      · rw [if_pos hk] at hkk
        rw [List.map_cons, List.mem_cons] at hkk
        rcases hkk with h | h
        · exact Or.inl h
        · exact Or.inr (by rw [List.map_cons, List.mem_cons]; exact Or.inr h)
      · rw [if_neg hk] at hkk
        rw [List.map_cons, List.mem_cons] at hkk
        rcases hkk with h | h
        · exact Or.inr (by rw [List.map_cons, List.mem_cons]; exact Or.inl h)
        · rcases ih kk h with h' | h'
          · exact Or.inl h'
          · exact Or.inr (by rw [List.map_cons, List.mem_cons]; exact Or.inr h')

/-- Inserting a key not already present grows the dict by one entry. -/
theorem dictInsert_length_of_not_mem (k : String) (v : Payload) :
    ∀ d : List (String × Payload), k ∉ d.map Prod.fst →
      (dictInsert k v d).length = d.length + 1 := by
  intro d
  induction d with
  | nil => intro _; rfl
  | cons p rest ih =>
      obtain ⟨pk, pv⟩ := p
      intro h
      rw [List.map_cons, List.mem_cons] at h
      push_neg at h
      simp only [dictInsert]
      rw [if_neg (fun hc => h.1 hc.symm)]
      simp [ih h.2]

/-- The keys of the built `error_store` all come from the processed rows. -/
theorem buildRows_keys (cfg : LoaderCfg) :
    ∀ (rows : List Row) (idx : Nat) (acc : BuildAcc),
      buildRows cfg rows idx = Except.ok acc →
      ∀ kk ∈ acc.error_store.map Prod.fst, kk ∈ rows.map Row.error_id := by
  intro rows
  induction rows with
  | nil =>
      intro idx acc h kk hkk
      simp [buildRows] at h
      rw [← h] at hkk
      simp at hkk
  | cons row rest ih =>
      intro idx acc h kk hkk
      rcases hp : processRow cfg row with e | v
      · simp [buildRows, hp] at h
      · rcases hb : buildRows cfg rest (idx + 1) with e | acc'
        · simp [buildRows, hp, hb] at h
        · simp [buildRows, hp, hb] at h
          rw [← h] at hkk
          simp only at hkk
          rcases dictInsert_keys row.error_id (rowPayload row) acc'.error_store kk hkk
            with h' | h'
          · simp [h']
          · simp
            exact Or.inr (by
              have := ih (idx + 1) acc' hb kk h'
              simpa using this)

/-- Shape of a successful row loop: as many vectors and ordinal entries as
rows; as many store entries as rows when keys are distinct; and every stored
vector is some row's decoded vector, unmodified, of the configured length. -/
theorem buildRows_ok_spec (cfg : LoaderCfg) :
    ∀ (rows : List Row) (idx : Nat) (acc : BuildAcc),
      buildRows cfg rows idx = Except.ok acc →
      acc.embeddings_list.length = rows.length ∧
      acc.index_to_error_id.length = rows.length ∧
      ((rows.map Row.error_id).Nodup → acc.error_store.length = rows.length) ∧
      (∀ v ∈ acc.embeddings_list,
        (∃ row ∈ rows, decodeEmbedding row.error_id row.embedding = Except.ok v) ∧
        v.length = cfg.embedding_dim) := by
  intro rows
  induction rows with
  | nil =>
      intro idx acc h
      simp [buildRows] at h
      rw [← h]
      simp
  | cons row rest ih =>
      intro idx acc h
      rcases hp : processRow cfg row with e | v
      · simp [buildRows, hp] at h
      · rcases hb : buildRows cfg rest (idx + 1) with e | acc'
        · simp [buildRows, hp, hb] at h
        · simp [buildRows, hp, hb] at h
          obtain ⟨hel, him, hst, hvec⟩ := ih (idx + 1) acc' hb
          obtain ⟨hdec, hlen⟩ := processRow_ok_spec cfg row v hp
          rw [← h]
          refine ⟨by simp [hel], by simp [him], ?_, ?_⟩
          · intro hnd
            rw [List.map_cons, List.nodup_cons] at hnd
            have hnotmem : row.error_id ∉ acc'.error_store.map Prod.fst := by
              intro hc
              exact hnd.1 (buildRows_keys cfg rest (idx + 1) acc' hb _ hc)
            simp only [List.length_cons]
            rw [dictInsert_length_of_not_mem _ _ _ hnotmem, hst hnd.2]
          · intro w hw
            simp at hw
            rcases hw with hw | hw
            · subst hw
              exact ⟨⟨row, by simp, hdec⟩, hlen⟩
            · obtain ⟨⟨row', hrow', hdec'⟩, hlen'⟩ := hvec w hw
              exact ⟨⟨row', by simp [hrow'], hdec'⟩, hlen'⟩

/-- Inverting a successful non-cached `load_index`: the returned triple is
exactly the row loop's accumulators, the index holding the decoded vectors. -/
theorem load_index_ok_inversion (cfg : LoaderCfg) (st : LoaderState)
    (rows : List Row) (r : LoadOk) (hnl : st.loaded = false)
    (h : (load_index cfg st (.ok rows)).2 = Except.ok r) :
    ∃ acc : BuildAcc, buildRows cfg rows 0 = Except.ok acc ∧
      r = { index := { d := cfg.embedding_dim, xb := acc.embeddings_list }
            error_store := acc.error_store
            index_to_error_id := acc.index_to_error_id } := by
  have hc : ¬(st.loaded = true ∧ st.index.isSome = true) := by simp [hnl]
  by_cases hr : rows.isEmpty
  · simp [load_index, hc, hr] at h
  · rcases hbuild : buildRows cfg rows 0 with e | acc
    · simp [load_index, hc, hr, hbuild] at h
    · refine ⟨acc, rfl, ?_⟩
      simp [load_index, hc, hr, hbuild] at h
      exact h.symm

/-- The squared L2 norm of an all-zero vector is 0. -/
theorem normSq_replicate_zero : ∀ n : Nat, normSq (List.replicate n (0 : ℚ)) = 0 := by
  intro n
  induction n with
  | zero => rfl
  | succ n ih =>
      rw [List.replicate_succ]
      simp only [normSq, List.map_cons, List.sum_cons] at ih ⊢
      rw [ih]
      ring

/-- C5 (counterexample): the unit-norm part of the claim is false.  A row
whose 768-entry vector is all zeroes passes every check `load_index` performs
(norms are only logged, never asserted), so the build succeeds — yet the
stored vector's L2 norm is 0, not 1. -/
theorem c5_counterexample :
    (load_index demoCfg initState (.ok [demoRow])).2 = Except.ok demoBuildOk ∧
    List.replicate 768 (0 : ℚ) ∈ demoBuildOk.index.xb ∧
    normSq (List.replicate 768 (0 : ℚ)) ≠ 1 :=
  ⟨by rfl, by simp [demoBuildOk], by rw [normSq_replicate_zero]; norm_num⟩

/-- C5 (amended): every snapshot from a successful build has as many matrix
rows as storage rows and as many ordinal-map entries; the payload-store size
matches too whenever row keys are pairwise distinct (which the data model
guarantees); and each stored vector is exactly some row's decoded vector of
the configured dimension — stored unmodified, so unit L2 norm (and with it
"inner product = cosine similarity") holds only if the upstream rows already
carry unit-norm vectors; the build logs norm statistics but does not enforce
them. -/
theorem c5_amended_snapshot_invariants (cfg : LoaderCfg) (st : LoaderState)
    (rows : List Row) (r : LoadOk) (hnl : st.loaded = false)
    (h : (load_index cfg st (.ok rows)).2 = Except.ok r) :
    r.index.xb.length = rows.length ∧
    r.index_to_error_id.length = rows.length ∧
    ((rows.map Row.error_id).Nodup → r.error_store.length = rows.length) ∧
    (∀ v ∈ r.index.xb,
      (∃ row ∈ rows, decodeEmbedding row.error_id row.embedding = Except.ok v) ∧
      v.length = cfg.embedding_dim) := by
  obtain ⟨acc, hbuild, hre⟩ := load_index_ok_inversion cfg st rows r hnl h
  obtain ⟨hel, him, hst, hvec⟩ := buildRows_ok_spec cfg rows 0 acc hbuild
  subst hre
  exact ⟨hel, him, hst, hvec⟩

/-- C5 (witness for the amended claim): the one-row demo build has one matrix
row, one ordinal entry and one payload entry. -/
theorem c5_witness :
    demoBuildOk.index.xb.length = 1 ∧
    demoBuildOk.index_to_error_id.length = 1 ∧
    demoBuildOk.error_store.length = 1 := by
  have hinv := c5_amended_snapshot_invariants demoCfg initState [demoRow] demoBuildOk
    rfl (by rfl)
  exact ⟨hinv.1, hinv.2.1, hinv.2.2.1 (by decide)⟩

/-- C7: the processing phase runs only in runs where preparation succeeded and
the job-wait succeeded, and then only as the last step after setup,
preparation and the downstream-readiness wait; whenever the job-wait fails
(timeout or job failure), the processing phase is never invoked and the run
aborts with an error. -/
theorem c7_process_gated {π : Type} (m s : Bool) (prep : Except Unit π)
    (job : JobWaitResult) (ragOk : Bool) (processOk : π → Bool) :
    (Phase.process ∈ (pipelineMain m s prep job ragOk processOk).trace →
      s = true ∧ (∃ o, prep = Except.ok o) ∧ job = JobWaitResult.succeeded ∧
      (pipelineMain m s prep job ragOk processOk).trace
        = [Phase.setup, Phase.prepare, Phase.ragWait, Phase.process]) ∧
    (job ≠ JobWaitResult.succeeded →
      Phase.process ∉ (pipelineMain m s prep job ragOk processOk).trace ∧
      (pipelineMain m s prep job ragOk processOk).result.isOk = false) := by
  cases s with
  | false => constructor <;> simp [pipelineMain, pipelineBody, Except.isOk, Except.toBool]
  | true =>
      cases prep with
      | error u => constructor <;> simp [pipelineMain, pipelineBody, Except.isOk, Except.toBool]
      | ok o =>
          cases job with
          | timeout =>
              constructor <;> simp [pipelineMain, pipelineBody, Except.isOk, Except.toBool]
          | jobFailed =>
              constructor <;> simp [pipelineMain, pipelineBody, Except.isOk, Except.toBool]
          | succeeded =>
              cases ragOk with
              | false => constructor <;> simp [pipelineMain, pipelineBody]
              | true =>
                  cases hp : processOk o with
                  | true => constructor <;> simp [pipelineMain, pipelineBody, hp]
                  | false => constructor <;> simp [pipelineMain, pipelineBody, hp]

/-- C7 (witness): prepare succeeds quickly but the job-wait times out — the
processing phase is not invoked and the run ends in an error. -/
theorem c7_witness :
    Phase.process ∉ (pipelineMain true true (Except.ok (0 : Nat)) JobWaitResult.timeout
      true (fun _ => true)).trace ∧
    (pipelineMain true true (Except.ok (0 : Nat)) JobWaitResult.timeout
      true (fun _ => true)).result.isOk = false :=
  (c7_process_gated true true (Except.ok (0 : Nat)) JobWaitResult.timeout
    true (fun _ => true)).2 (by decide)

/-- C8: on every exit path of `main` — the `finally` block runs whether the
body completed or failed at any step — the monitor task is cancelled exactly
when it was started, and awaiting the cancelled monitor (which exits by
`CancelledError`, swallowed at line 112) never changes the run's outcome:
the result is exactly the body's result. -/
theorem c8_monitor_cleanup {π : Type} (m s : Bool) (prep : Except Unit π)
    (job : JobWaitResult) (ragOk : Bool) (processOk : π → Bool) :
    (pipelineMain m s prep job ragOk processOk).monitorCancelled
      = (pipelineMain m s prep job ragOk processOk).monitorStarted ∧
    (pipelineMain m s prep job ragOk processOk).result
      = (pipelineBody s prep job ragOk processOk).2 :=
  ⟨rfl, rfl⟩

/-- The candidate order implies non-increasing scores. -/
theorem candLE_le (a b : ℚ × Nat) (h : candLE a b = true) : b.1 ≤ a.1 := by
  simp [candLE] at h
  rcases h with h | ⟨h, _⟩
  · exact le_of_lt h
  · exact le_of_eq h.symm

/-- The candidate order is transitive. -/
theorem candLE_trans : ∀ a b c : ℚ × Nat,
    candLE a b = true → candLE b c = true → candLE a c = true := by
  intro a b c hab hbc
  simp [candLE] at hab hbc ⊢
  rcases hab with h1 | ⟨h1, h1'⟩ <;> rcases hbc with h2 | ⟨h2, h2'⟩
  · exact Or.inl (lt_trans h2 h1)
  · exact Or.inl (by rw [← h2]; exact h1)
  · exact Or.inl (by rw [h1]; exact h2)
  · exact Or.inr ⟨h1.trans h2, le_trans h1' h2'⟩

/-- The candidate order is total: ascending-ordinal tie-break decides equal
scores. -/
theorem candLE_total : ∀ a b : ℚ × Nat, (candLE a b || candLE b a) = true := by
  intro a b
  simp [candLE]
  rcases lt_trichotomy a.1 b.1 with h | h | h
  · exact Or.inr (Or.inl h)
  · rcases Nat.le_total a.2 b.2 with h2 | h2
    · exact Or.inl (Or.inr ⟨h, h2⟩)
    · exact Or.inr (Or.inr ⟨h.symm, h2⟩)
  · exact Or.inl (Or.inl h)

/-- The ranked candidate list is sorted in the candidate order. -/
theorem rankedRows_sorted (ix : FaissIndex) (q : Vec) :
    (rankedRows ix q).Pairwise (fun a b => candLE a b = true) :=
  List.sorted_mergeSort candLE_trans candLE_total (scoredRows ix q)

/-- C2: for any snapshot and query vector (`top_k ≥ 1`, `top_n ≥ 1`,
`threshold ∈ [0,1]`), the search pipeline returns at most `top_n` results
(possibly fewer, possibly none), sorted by non-increasing score, each with
score not strictly below the threshold, and each drawn from the `top_k`
best-scoring rows (descending score, ties by ascending ordinal); the ranking
itself is a permutation of all scored rows, so the top-k really are selected
from the whole index. -/
theorem c2_search_contract (st : LoaderState) (ix : FaissIndex) (q : Vec)
    (k n : Nat) (t : ℚ) (_hk : 1 ≤ k) (_hn : 1 ≤ n) (_ht0 : 0 ≤ t) (_ht1 : t ≤ 1) :
    (query_rag st ix q k n t).length ≤ n ∧
    (query_rag st ix q k n t).Pairwise
      (fun a b => b.similarity_score ≤ a.similarity_score) ∧
    (∀ r ∈ query_rag st ix q k n t, t ≤ r.similarity_score) ∧
    (∀ r ∈ query_rag st ix q k n t,
      (r.similarity_score, r.ordinal) ∈ faissSearch ix q k) ∧
    (rankedRows ix q).Perm (scoredRows ix q) := by
  have hsorted := rankedRows_sorted ix q
  have htopk : (faissSearch ix q k).Pairwise (fun a b => candLE a b = true) :=
    List.Pairwise.sublist (List.take_sublist _ _) hsorted
  have hfilter : ((faissSearch ix q k).filter (fun p => ¬ p.1 < t)).Pairwise
      (fun a b => candLE a b = true) :=
    List.Pairwise.sublist (List.filter_sublist _) htopk
  refine ⟨?_, ?_, ?_, ?_, List.mergeSort_perm _ _⟩
  · simp only [query_rag]
    rw [List.length_take]
    exact min_le_left _ _
  · simp only [query_rag]
    apply List.Pairwise.sublist (List.take_sublist _ _)
    rw [List.pairwise_map]
    exact hfilter.imp (fun h => candLE_le _ _ h)
  · intro r hr
    simp only [query_rag] at hr
    have hr' := (List.take_sublist _ _).subset hr
    obtain ⟨p, hp, rfl⟩ := List.mem_map.mp hr'
    obtain ⟨_, hpt⟩ := List.mem_filter.mp hp
    simp at hpt
    exact hpt
  · intro r hr
    simp only [query_rag] at hr
    have hr' := (List.take_sublist _ _).subset hr
    obtain ⟨p, hp, rfl⟩ := List.mem_map.mp hr'
    obtain ⟨hpk, _⟩ := List.mem_filter.mp hp
    exact hpk

/-- C2 (witness), on the spec's worked two-record example with
`top_k = top_n = 2`, `threshold = 0`. -/
theorem c2_witness :
    (query_rag demoSearchState demoIx demoQuery 2 2 0).length ≤ 2 ∧
    (rankedRows demoIx demoQuery).Perm (scoredRows demoIx demoQuery) := by
  have h := c2_search_contract demoSearchState demoIx demoQuery 2 2 0
    (by decide) (by decide) (by norm_num) (by norm_num)
  exact ⟨h.1, h.2.2.2.2⟩

end ALM
